import Mathlib

/-!
Verification of the mavros frame-conversion library
(src/mavros/src/lib/ftf_frame_conversions.cpp) and of the mavros node's
message routing and link diagnostics (src/src/mavros_node.cpp).

The frame-transform functions are embedded over the real numbers: Eigen's
double-precision quaternions, rotation matrices and covariance matrices
become exact real-valued data, and Eigen's operations (Hamilton quaternion
product, quaternion-to-rotation-matrix conversion, matrix products, the
rotation-matrix coercion used by `matrix * quaternion`) are spelled out as
Lean functions following Eigen's definitions.

The router and diagnostics are embedded as pure state-passing functions:
the boost signal held in each slot of `message_route_table` becomes a list
of callbacks invoked in connection order, and a callback that throws is a
callback whose `fails` flag is set, which aborts the in-order fold exactly
where a C++ exception would.
-/

namespace MavrosFTF

/-- Eigen `Quaterniond`: four double components (here exact reals), in
(w, x, y, z) order. -/
structure Quat where
  w : ℝ
  x : ℝ
  y : ℝ
  z : ℝ

/-- Eigen quaternion product (Hamilton convention), as in
`Eigen::Quaternion::operator*`. -/
def qmul (a b : Quat) : Quat :=
  ⟨a.w * b.w - a.x * b.x - a.y * b.y - a.z * b.z,
   a.w * b.x + a.x * b.w + a.y * b.z - a.z * b.y,
   a.w * b.y - a.x * b.z + a.y * b.w + a.z * b.x,
   a.w * b.z + a.x * b.y - a.y * b.x + a.z * b.w⟩

/-- Componentwise negation of a quaternion (the antipodal representative of
the same rotation). -/
def qneg (q : Quat) : Quat := ⟨-q.w, -q.x, -q.y, -q.z⟩

/-- Eigen `Quaternion::norm()`. -/
noncomputable def qnorm (q : Quat) : ℝ :=
  Real.sqrt (q.w * q.w + q.x * q.x + q.y * q.y + q.z * q.z)

/-- Scalar multiple of a quaternion. -/
def qscale (c : ℝ) (q : Quat) : Quat := ⟨c * q.w, c * q.x, c * q.y, c * q.z⟩

/-- Eigen `Quaternion::normalized()`: the quaternion divided by its norm. -/
noncomputable def qnormalized (q : Quat) : Quat := qscale (1 / qnorm q) q

/-- Eigen `Quaterniond(AngleAxisd(theta, UnitX()))`. -/
noncomputable def qAngleAxisX (theta : ℝ) : Quat :=
  ⟨Real.cos (theta / 2), Real.sin (theta / 2), 0, 0⟩

/-- Eigen `Quaterniond(AngleAxisd(theta, UnitY()))`. -/
noncomputable def qAngleAxisY (theta : ℝ) : Quat :=
  ⟨Real.cos (theta / 2), 0, Real.sin (theta / 2), 0⟩

/-- Eigen `Quaterniond(AngleAxisd(theta, UnitZ()))`. -/
noncomputable def qAngleAxisZ (theta : ℝ) : Quat :=
  ⟨Real.cos (theta / 2), 0, 0, Real.sin (theta / 2)⟩

/-- Modelled from the spec: `quaternion_from_rpy` lives in the header
`mavros/frame_tf.h`, which is not under src/.  The spec describes the fixed
NED/ENU orientation as the "composition of a half-turn about the
forward/north axis followed by a quarter-turn about the down/up axis", i.e.
the yaw rotation (about Z) is composed after the pitch rotation (about Y),
which is composed after the roll rotation (about X). -/
noncomputable def quaternion_from_rpy (roll pitch yaw : ℝ) : Quat :=
  qmul (qAngleAxisZ yaw) (qmul (qAngleAxisY pitch) (qAngleAxisX roll))

/-- Static quaternion rotating between ENU and NED frames:
`quaternion_from_rpy(M_PI, 0.0, M_PI_2)`
(ftf_frame_conversions.cpp line 28). -/
noncomputable def NED_ENU_Q : Quat := quaternion_from_rpy Real.pi 0 (Real.pi / 2)

/-- Static quaternion rotating between aircraft and base_link frames:
`quaternion_from_rpy(M_PI, 0.0, 0.0)`
(ftf_frame_conversions.cpp line 33). -/
noncomputable def AIRCRAFT_BASELINK_Q : Quat := quaternion_from_rpy Real.pi 0 0

/-- Eigen `Quaternion::toRotationMatrix()` (the formula from
Eigen/src/Geometry/Quaternion.h, expanded). -/
noncomputable def toRotationMatrix (q : Quat) : Matrix (Fin 3) (Fin 3) ℝ :=
  Matrix.of
    ![![1 - 2 * (q.y * q.y + q.z * q.z), 2 * (q.x * q.y - q.w * q.z),
        2 * (q.x * q.z + q.w * q.y)],
      ![2 * (q.x * q.y + q.w * q.z), 1 - 2 * (q.x * q.x + q.z * q.z),
        2 * (q.y * q.z - q.w * q.x)],
      ![2 * (q.x * q.z - q.w * q.y), 2 * (q.y * q.z + q.w * q.x),
        1 - 2 * (q.x * q.x + q.y * q.y)]]

/-- Enumeration of the fixed transform directions (mavros/frame_tf.h,
used by the switch statements in ftf_frame_conversions.cpp). -/
inductive StaticTF
  | NED_TO_ENU
  | ENU_TO_NED
  | AIRCRAFT_TO_BASELINK
  | BASELINK_TO_AIRCRAFT
deriving DecidableEq

/-- Covariance3d: a 3x3 matrix of doubles (mavros maps the flat
`boost::array` onto an Eigen 3x3 matrix; we embed the matrix directly). -/
abbrev Covariance3d := Matrix (Fin 3) (Fin 3) ℝ

/-- Covariance6d: a 6x6 matrix of doubles, indexed by its two 3-dimensional
halves so the 3x3 block structure used by the source is explicit. -/
abbrev Covariance6d := Matrix (Fin 3 ⊕ Fin 3) (Fin 3 ⊕ Fin 3) ℝ

/-- `transform_orientation` (ftf_frame_conversions.cpp lines 39-53):
NED/ENU directions return `NED_ENU_Q * q`; aircraft/base_link directions
return `q * AIRCRAFT_BASELINK_Q`. -/
noncomputable def transform_orientation (q : Quat) (transform : StaticTF) : Quat :=
  match transform with
  | .NED_TO_ENU | .ENU_TO_NED => qmul NED_ENU_Q q
  | .AIRCRAFT_TO_BASELINK | .BASELINK_TO_AIRCRAFT => qmul q AIRCRAFT_BASELINK_Q

/-- `transform_static_frame` on `Eigen::Vector3d`
(ftf_frame_conversions.cpp lines 55-66): applies the fixed affine
transform, i.e. multiplies by the rotation matrix of the fixed quaternion
(`NED_ENU_AFFINE` / `AIRCRAFT_BASELINK_AFFINE` are `Affine3d` built from the
fixed quaternions). -/
noncomputable def transform_static_frame_vec (vec : Fin 3 → ℝ) (transform : StaticTF) :
    Fin 3 → ℝ :=
  match transform with
  | .NED_TO_ENU | .ENU_TO_NED => (toRotationMatrix NED_ENU_Q).mulVec vec
  | .AIRCRAFT_TO_BASELINK | .BASELINK_TO_AIRCRAFT =>
      (toRotationMatrix AIRCRAFT_BASELINK_Q).mulVec vec

/-- `transform_static_frame` on `Covariance3d`
(ftf_frame_conversions.cpp lines 68-85): `cov_out = cov_in * NED_ENU_Q`
(resp. `AIRCRAFT_BASELINK_Q`).  In Eigen, `matrix * quaternion` multiplies
the matrix on the right by `quaternion.toRotationMatrix()`
(the `RotationBase` mixed-product operator). -/
noncomputable def transform_static_frame_cov3 (cov : Covariance3d)
    (transform : StaticTF) : Covariance3d :=
  match transform with
  | .NED_TO_ENU | .ENU_TO_NED => cov * toRotationMatrix NED_ENU_Q
  | .AIRCRAFT_TO_BASELINK | .BASELINK_TO_AIRCRAFT =>
      cov * toRotationMatrix AIRCRAFT_BASELINK_Q

/-- `transform_static_frame` on `Covariance6d`
(ftf_frame_conversions.cpp lines 87-116): builds the block-diagonal
`Affine6dTf` from two copies of the rotation matrix of the re-normalized
fixed quaternion (`_R` for the NED/ENU pair, `R_` for the
aircraft/base_link pair) and returns
`Affine6dTf * cov_in * Affine6dTf.transpose()`. -/
noncomputable def transform_static_frame_cov6 (cov : Covariance6d)
    (transform : StaticTF) : Covariance6d :=
  let R1 := toRotationMatrix (qnormalized NED_ENU_Q)
  let R2 := toRotationMatrix (qnormalized AIRCRAFT_BASELINK_Q)
  match transform with
  | .NED_TO_ENU | .ENU_TO_NED =>
      let T := Matrix.fromBlocks R1 0 0 R1
      T * cov * T.transpose
  | .AIRCRAFT_TO_BASELINK | .BASELINK_TO_AIRCRAFT =>
      let T := Matrix.fromBlocks R2 0 0 R2
      T * cov * T.transpose

/-- `transform_frame` on `Eigen::Vector3d` (ftf_frame_conversions.cpp
lines 118-122): applies the affine transform built from the caller's
quaternion. -/
noncomputable def transform_frame_vec (vec : Fin 3 → ℝ) (q : Quat) : Fin 3 → ℝ :=
  (toRotationMatrix q).mulVec vec

/-- `transform_frame` on `Covariance3d` (ftf_frame_conversions.cpp
lines 124-132): `cov_out = cov_in * q`, i.e. right-multiplication by
`q.toRotationMatrix()`. -/
noncomputable def transform_frame_cov3 (cov : Covariance3d) (q : Quat) :
    Covariance3d :=
  cov * toRotationMatrix q

/-- `transform_frame` on `Covariance6d` (ftf_frame_conversions.cpp
lines 134-149): block-diagonal similarity transform with
`R = q.normalized().toRotationMatrix()`. -/
noncomputable def transform_frame_cov6 (cov : Covariance6d) (q : Quat) :
    Covariance6d :=
  let R := toRotationMatrix (qnormalized q)
  let T := Matrix.fromBlocks R 0 0 R
  T * cov * T.transpose

/-- Helper: the 3x3 rotation block used by the Covariance6d branch for each
direction (the `_R` matrix for the NED/ENU pair, `R_` for the
aircraft/base_link pair). -/
noncomputable def staticCov6Block (t : StaticTF) : Matrix (Fin 3) (Fin 3) ℝ :=
  match t with
  | .NED_TO_ENU | .ENU_TO_NED => toRotationMatrix (qnormalized NED_ENU_Q)
  | .AIRCRAFT_TO_BASELINK | .BASELINK_TO_AIRCRAFT =>
      toRotationMatrix (qnormalized AIRCRAFT_BASELINK_Q)

/-- Helper: the 6x6 block-diagonal `Affine6dTf` matrix for each direction. -/
noncomputable def staticCov6T (t : StaticTF) : Covariance6d :=
  Matrix.fromBlocks (staticCov6Block t) 0 0 (staticCov6Block t)

end MavrosFTF

namespace MavrosNode

/-- Subscriber callback registered in the route table (a slot bound to a
plugin's `message_rx_cb`).  `fails` marks a callback whose invocation
throws. -/
structure Callback where
  plugin : ℕ
  fails : Bool
deriving DecidableEq

/-- Decoded `mavlink_message_t` as seen by the router: the message id is an
8-bit value, the payload is opaque. -/
structure MavlinkMessage where
  msgid : Fin 256
  seq : ℕ
  payload : List ℕ
deriving DecidableEq

/-- Record of one callback invocation: the callback together with the
arguments `(message, sysid, compid)` it was called with. -/
structure Invocation where
  cb : Callback
  msg : MavlinkMessage
  sysid : ℕ
  compid : ℕ
deriving DecidableEq

/-- Failure escaping from a subscriber callback during dispatch. -/
structure SubscriberFault where
  cb : Callback
deriving DecidableEq

/-- Route table: `message_route_table(256)`, one signal (list of connected
callbacks) per message id (mavros_node.cpp lines 91, 164-165). -/
def RouteTable := Fin 256 → List Callback

/-- Freshly constructed route table: 256 empty signals. -/
def emptyRouteTable : RouteTable := fun _ => []

/-- `signal::connect`: boost signals2 appends the new slot, and invocation
runs slots in connection order. -/
def connectSlot (sig : List Callback) (cb : Callback) : List Callback :=
  sig ++ [cb]

/-- One registration step of `add_plugin`:
`message_route_table[*it].connect(boost::bind(&MavRosPlugin::message_rx_cb, ...))`
(mavros_node.cpp lines 210-217). -/
def addRoute (t : RouteTable) (m : Fin 256) (cb : Callback) : RouteTable :=
  Function.update t m (connectSlot (t m) cb)

/-- A sequence of registrations, applied in order to the fresh table. -/
def registerAll (regs : List (Fin 256 × Callback)) : RouteTable :=
  regs.foldl (fun t r => addRoute t r.1 r.2) emptyRouteTable

/-- Callbacks registered for message id `m`, in registration order. -/
def regsFor (m : Fin 256) (regs : List (Fin 256 × Callback)) : List Callback :=
  (regs.filter fun r => r.1 = m).map Prod.snd

/-- Signal invocation: each connected slot is called in connection order;
a slot that throws aborts the remaining slots and the exception escapes
(there is no try/catch on the dispatch path). Returns the invocations that
were delivered and the escaping fault, if any. -/
def runSlots : List Callback → MavlinkMessage → ℕ → ℕ →
    List Invocation × Option SubscriberFault
  | [], _, _, _ => ([], none)
  | cb :: rest, msg, sysid, compid =>
      if cb.fails then ([], some ⟨cb⟩)
      else
        let r := runSlots rest msg sysid compid
        (⟨cb, msg, sysid, compid⟩ :: r.1, r.2)

/-- `MavRos::plugin_route_cb` (mavros_node.cpp lines 195-197):
`message_route_table[mmsg->msgid](mmsg, sysid, compid)`. -/
def plugin_route_cb (t : RouteTable) (msg : MavlinkMessage)
    (sysid compid : ℕ) : List Invocation × Option SubscriberFault :=
  runSlots (t msg.msgid) msg sysid compid

/-- Possible registration failure, as named by the spec. -/
inductive RegisterError
  | InvalidId
deriving DecidableEq

/-- Modelled from the spec: the validating `Router.register` operation
("fails with InvalidId if message_id is not in [0,255]; otherwise appends
to that id's subscriber list").  src/ contains only the uint8-typed
registration path (`add_plugin`), in which an out-of-range id is
unrepresentable, so the spec-level register with its id check is not
present in src/ and is modelled from the spec's words; on a valid id it
performs exactly the source's `addRoute`. -/
def routerRegister (message_id : ℕ) (cb : Callback) (t : RouteTable) :
    Except RegisterError RouteTable :=
  if h : message_id < 256 then Except.ok (addRoute t ⟨message_id, h⟩ cb)
  else Except.error RegisterError.InvalidId

/-- Table state after a `routerRegister` call: the new table on success,
the untouched table on failure. -/
def routerRegisterState (message_id : ℕ) (cb : Callback) (t : RouteTable) :
    RouteTable :=
  match routerRegister message_id cb t with
  | .ok t2 => t2
  | .error _ => t

/-- Link status counters (`mavlink_status_t`) returned by
`MAVConnInterface::get_status`. -/
structure mavlink_status_t where
  packet_rx_success_count : ℕ
  packet_rx_drop_count : ℕ
  buffer_overrun : ℕ
  parse_error : ℕ
  current_rx_seq : ℕ
  current_tx_seq : ℕ
deriving DecidableEq

/-- Summary set by `MavlinkDiag::run`: level 1 with the number of packets
dropped since the last report, level 0 "connected", or level 2
"not connected" when the weak link is dead. -/
inductive DiagSummary
  | packagesDropped (n : ℕ)
  | connected
  | notConnected
deriving DecidableEq

/-- Diagnostic level attached to each summary by the source
(`summaryf(1, ...)`, `summary(0, ...)`, `summary(2, ...)`). -/
def DiagSummary.level : DiagSummary → ℕ
  | .packagesDropped _ => 1
  | .connected => 0
  | .notConnected => 2

/-- One diagnostics report: the key/value counter lines added with
`stat.addf` plus the summary. -/
structure DiagReport where
  fields : List (String × ℕ)
  summary : DiagSummary
deriving DecidableEq

/-- `MavlinkDiag::run` (mavros_node.cpp lines 47-69).  `link` is the locked
weak pointer (`none` when the link is gone); `last_drop_count` is the
persistent member, initialized to 0 by the constructor.  Returns the report
and the updated `last_drop_count`. -/
def MavlinkDiag_run (link : Option mavlink_status_t) (last_drop_count : ℕ) :
    DiagReport × ℕ :=
  match link with
  | some st =>
      ({ fields :=
            [("Received packets:", st.packet_rx_success_count),
             ("Dropped packets:", st.packet_rx_drop_count),
             ("Buffer overruns:", st.buffer_overrun),
             ("Parse errors:", st.parse_error),
             ("Rx sequence number:", st.current_rx_seq),
             ("Tx sequence number:", st.current_tx_seq)],
         summary :=
            if last_drop_count < st.packet_rx_drop_count then
              DiagSummary.packagesDropped
                (st.packet_rx_drop_count - last_drop_count)
            else DiagSummary.connected },
       st.packet_rx_drop_count)
  | none => ({ fields := [], summary := DiagSummary.notConnected },
      last_drop_count)

/-- Initial value of the `last_drop_count` member
(`MavlinkDiag` constructor, mavros_node.cpp line 44). -/
def MavlinkDiag_init : ℕ := 0

end MavrosNode

namespace MavrosFTF

theorem Quat.ext_iff' (a b : Quat) :
    a = b ↔ a.w = b.w ∧ a.x = b.x ∧ a.y = b.y ∧ a.z = b.z := by
  cases a; cases b; simp [Quat.mk.injEq]

lemma sqrt_two_mul_self : Real.sqrt 2 * Real.sqrt 2 = 2 :=
  Real.mul_self_sqrt (by norm_num)

lemma NED_ENU_Q_eq :
    NED_ENU_Q = ⟨0, Real.sqrt 2 / 2, Real.sqrt 2 / 2, 0⟩ := by
  have h2 : Real.pi / 2 / 2 = Real.pi / 4 := by ring
  simp only [NED_ENU_Q, quaternion_from_rpy, qAngleAxisX, qAngleAxisY,
    qAngleAxisZ, qmul, h2, Real.cos_pi_div_four, Real.sin_pi_div_four,
    Real.cos_pi_div_two, Real.sin_pi_div_two]
  norm_num [Quat.ext_iff']

lemma AIRCRAFT_BASELINK_Q_eq : AIRCRAFT_BASELINK_Q = ⟨0, 1, 0, 0⟩ := by
  simp only [AIRCRAFT_BASELINK_Q, quaternion_from_rpy, qAngleAxisX,
    qAngleAxisY, qAngleAxisZ, qmul, Real.cos_pi_div_two, Real.sin_pi_div_two]
  norm_num [Quat.ext_iff']

lemma qnormalized_NED_ENU_Q : qnormalized NED_ENU_Q = NED_ENU_Q := by
  rw [NED_ENU_Q_eq]
  have hn : qnorm ⟨0, Real.sqrt 2 / 2, Real.sqrt 2 / 2, 0⟩ = 1 := by
    simp only [qnorm]
    have : (0 : ℝ) * 0 + Real.sqrt 2 / 2 * (Real.sqrt 2 / 2) +
        Real.sqrt 2 / 2 * (Real.sqrt 2 / 2) + 0 * 0 = 1 := by
      nlinarith [sqrt_two_mul_self]
    rw [this, Real.sqrt_one]
  simp [qnormalized, hn, qscale]

lemma qnormalized_AIRCRAFT_BASELINK_Q :
    qnormalized AIRCRAFT_BASELINK_Q = AIRCRAFT_BASELINK_Q := by
  rw [AIRCRAFT_BASELINK_Q_eq]
  have hn : qnorm ⟨0, 1, 0, 0⟩ = 1 := by
    simp [qnorm]
  simp [qnormalized, hn, qscale]

/-- Explicit value of the NED/ENU rotation matrix. -/
lemma toRotationMatrix_NED_ENU_Q :
    toRotationMatrix NED_ENU_Q =
      Matrix.of ![![0, 1, 0], ![1, 0, 0], ![0, 0, -1]] := by
  rw [NED_ENU_Q_eq]
  unfold toRotationMatrix
  have h : Real.sqrt 2 / 2 * (Real.sqrt 2 / 2) = 1 / 2 := by
    nlinarith [sqrt_two_mul_self]
  ext i j
  fin_cases i <;> fin_cases j <;> norm_num [h]

/-- Explicit value of the aircraft/base_link rotation matrix. -/
lemma toRotationMatrix_AIRCRAFT_BASELINK_Q :
    toRotationMatrix AIRCRAFT_BASELINK_Q =
      Matrix.of ![![1, 0, 0], ![0, -1, 0], ![0, 0, -1]] := by
  rw [AIRCRAFT_BASELINK_Q_eq]
  unfold toRotationMatrix
  ext i j
  fin_cases i <;> fin_cases j <;> norm_num

lemma qmul_assoc (a b c : Quat) : qmul (qmul a b) c = qmul a (qmul b c) := by
  simp only [qmul, Quat.ext_iff']
  refine ⟨by ring, by ring, by ring, by ring⟩

lemma qmul_NED_ENU_Q_self :
    qmul NED_ENU_Q NED_ENU_Q = ⟨-1, 0, 0, 0⟩ := by
  rw [NED_ENU_Q_eq]
  simp only [qmul, Quat.ext_iff']
  refine ⟨by nlinarith [sqrt_two_mul_self], by ring, by ring, by ring⟩

lemma qmul_AIRCRAFT_BASELINK_Q_self :
    qmul AIRCRAFT_BASELINK_Q AIRCRAFT_BASELINK_Q = ⟨-1, 0, 0, 0⟩ := by
  rw [AIRCRAFT_BASELINK_Q_eq]
  simp only [qmul, Quat.ext_iff']
  norm_num

lemma qmul_negOne_left (q : Quat) : qmul ⟨-1, 0, 0, 0⟩ q = qneg q := by
  simp only [qmul, qneg, Quat.ext_iff']
  refine ⟨by ring, by ring, by ring, by ring⟩

lemma qmul_negOne_right (q : Quat) : qmul q ⟨-1, 0, 0, 0⟩ = qneg q := by
  simp only [qmul, qneg, Quat.ext_iff']
  refine ⟨by ring, by ring, by ring, by ring⟩

/-- Helper: the NED/ENU round trip negates the quaternion componentwise. -/
lemma ned_enu_roundtrip (q : Quat) :
    transform_orientation (transform_orientation q .NED_TO_ENU) .ENU_TO_NED =
      qneg q := by
  show qmul NED_ENU_Q (qmul NED_ENU_Q q) = qneg q
  rw [← qmul_assoc, qmul_NED_ENU_Q_self, qmul_negOne_left]

/-- Helper: the aircraft/base_link round trip negates the quaternion
componentwise. -/
lemma aircraft_baselink_roundtrip (q : Quat) :
    transform_orientation (transform_orientation q .AIRCRAFT_TO_BASELINK)
      .BASELINK_TO_AIRCRAFT = qneg q := by
  show qmul (qmul q AIRCRAFT_BASELINK_Q) AIRCRAFT_BASELINK_Q = qneg q
  rw [qmul_assoc, qmul_AIRCRAFT_BASELINK_Q_self, qmul_negOne_right]

/-- Negating a quaternion does not change the rotation matrix it determines:
`q` and `-q` represent the same orientation. -/
lemma toRotationMatrix_qneg (q : Quat) :
    toRotationMatrix (qneg q) = toRotationMatrix q := by
  unfold toRotationMatrix qneg
  ext i j
  fin_cases i <;> fin_cases j <;> simp

lemma transform_static_frame_cov6_eq (cov : Covariance6d) (t : StaticTF) :
    transform_static_frame_cov6 cov t =
      staticCov6T t * cov * (staticCov6T t).transpose := by
  cases t <;> rfl

lemma staticCov6Block_orth (t : StaticTF) :
    (staticCov6Block t).transpose * staticCov6Block t = 1 := by
  cases t <;>
    simp only [staticCov6Block, qnormalized_NED_ENU_Q,
      qnormalized_AIRCRAFT_BASELINK_Q, toRotationMatrix_NED_ENU_Q,
      toRotationMatrix_AIRCRAFT_BASELINK_Q] <;>
    · ext i j
      fin_cases i <;> fin_cases j <;>
        simp [Matrix.mul_apply, Fin.sum_univ_succ, Matrix.one_apply]

lemma staticCov6T_orth (t : StaticTF) :
    (staticCov6T t).transpose * staticCov6T t = 1 := by
  unfold staticCov6T
  rw [Matrix.fromBlocks_transpose, Matrix.fromBlocks_multiply]
  simp [staticCov6Block_orth t, Matrix.fromBlocks_one]

/-- Claim C1 counterexample: at the diagonal covariance diag(1,2,3) and
direction NED_TO_ENU, the Covariance3d overload of `transform_static_frame`
does not return the similarity transform `R * cov * R.transpose` (with `R`
the rotation matrix of the re-normalized fixed orientation): the code
computes `cov * R` instead, and the two differ at entry (0,0). -/
theorem ftf_cov3_not_similarity_counterexample :
    transform_static_frame_cov3
        (Matrix.of ![![1, 0, 0], ![0, 2, 0], ![0, 0, 3]]) .NED_TO_ENU ≠
      toRotationMatrix (qnormalized NED_ENU_Q) *
        Matrix.of ![![1, 0, 0], ![0, 2, 0], ![0, 0, 3]] *
        (toRotationMatrix (qnormalized NED_ENU_Q)).transpose := by
  intro h
  have h00 := congrFun (congrFun h 0) 0
  simp only [transform_static_frame_cov3, qnormalized_NED_ENU_Q,
    toRotationMatrix_NED_ENU_Q] at h00
  simp [Matrix.mul_apply, Fin.sum_univ_succ] at h00

/-- Claim C1 (amended): the Covariance3d overload of
`transform_static_frame` right-multiplies the covariance by the rotation
matrix of the fixed orientation of the selected pair (explicitly
[[0,1,0],[1,0,0],[0,0,-1]] for NED/ENU and [[1,0,0],[0,-1,0],[0,0,-1]] for
aircraft/base_link) rather than applying a similarity transform, and the
arbitrary-quaternion entry point `transform_frame` likewise computes
`cov * q.toRotationMatrix()`. -/
theorem ftf_C1_cov3_right_multiplication :
    ∀ cov : Covariance3d,
      (transform_static_frame_cov3 cov .NED_TO_ENU =
        cov * Matrix.of ![![0, 1, 0], ![1, 0, 0], ![0, 0, -1]]) ∧
      (transform_static_frame_cov3 cov .ENU_TO_NED =
        cov * Matrix.of ![![0, 1, 0], ![1, 0, 0], ![0, 0, -1]]) ∧
      (transform_static_frame_cov3 cov .AIRCRAFT_TO_BASELINK =
        cov * Matrix.of ![![1, 0, 0], ![0, -1, 0], ![0, 0, -1]]) ∧
      (transform_static_frame_cov3 cov .BASELINK_TO_AIRCRAFT =
        cov * Matrix.of ![![1, 0, 0], ![0, -1, 0], ![0, 0, -1]]) ∧
      ∀ q : Quat, transform_frame_cov3 cov q = cov * toRotationMatrix q := by
  intro cov
  refine ⟨?_, ?_, ?_, ?_, fun q => rfl⟩ <;>
    simp [transform_static_frame_cov3, toRotationMatrix_NED_ENU_Q,
      toRotationMatrix_AIRCRAFT_BASELINK_Q]

/-- Claim C2: `transform_orientation` left-multiplies by the fixed NED/ENU
quaternion for the NED_TO_ENU and ENU_TO_NED directions, and
right-multiplies by the fixed aircraft/base_link quaternion for the
AIRCRAFT_TO_BASELINK and BASELINK_TO_AIRCRAFT directions. -/
theorem ftf_C2_orientation_multiplication_sides :
    ∀ q : Quat,
      (transform_orientation q .NED_TO_ENU = qmul NED_ENU_Q q) ∧
      (transform_orientation q .ENU_TO_NED = qmul NED_ENU_Q q) ∧
      (transform_orientation q .AIRCRAFT_TO_BASELINK =
        qmul q AIRCRAFT_BASELINK_Q) ∧
      (transform_orientation q .BASELINK_TO_AIRCRAFT =
        qmul q AIRCRAFT_BASELINK_Q) :=
  fun _ => ⟨rfl, rfl, rfl, rfl⟩

/-- Claim C3: the Covariance6d overload of `transform_static_frame` builds
a 6x6 block-diagonal matrix from two copies of the same 3x3 rotation (the
off-diagonal 3x3 blocks are zero), returns the similarity transform
`T * cov * T.transpose`, and introduces no cross-block coupling: an input
with zero off-diagonal 3x3 blocks yields an output with zero off-diagonal
3x3 blocks. -/
theorem ftf_C3_cov6_block_diagonal_similarity :
    ∀ (t : StaticTF) (cov : Covariance6d) (A D : Matrix (Fin 3) (Fin 3) ℝ),
      (transform_static_frame_cov6 cov t =
        staticCov6T t * cov * (staticCov6T t).transpose) ∧
      (staticCov6T t =
        Matrix.fromBlocks (staticCov6Block t) 0 0 (staticCov6Block t)) ∧
      ((transform_static_frame_cov6 (Matrix.fromBlocks A 0 0 D) t).toBlocks₁₂
          = 0) ∧
      ((transform_static_frame_cov6 (Matrix.fromBlocks A 0 0 D) t).toBlocks₂₁
          = 0) := by
  intro t cov A D
  have hblock : transform_static_frame_cov6 (Matrix.fromBlocks A 0 0 D) t =
      Matrix.fromBlocks
        (staticCov6Block t * A * (staticCov6Block t).transpose) 0 0
        (staticCov6Block t * D * (staticCov6Block t).transpose) := by
    rw [transform_static_frame_cov6_eq]
    unfold staticCov6T
    rw [Matrix.fromBlocks_transpose, Matrix.fromBlocks_multiply,
      Matrix.fromBlocks_multiply]
    simp
  refine ⟨transform_static_frame_cov6_eq cov t, rfl, ?_, ?_⟩ <;>
    simp [hblock, Matrix.toBlocks_fromBlocks₁₂, Matrix.toBlocks_fromBlocks₂₁]

/-- Claim C4 counterexample: the NED/ENU round trip applied to the identity
orientation (1,0,0,0) returns (-1,0,0,0), not the original quaternion. -/
theorem ftf_orientation_roundtrip_counterexample :
    transform_orientation
        (transform_orientation ⟨1, 0, 0, 0⟩ .NED_TO_ENU) .ENU_TO_NED ≠
      (⟨1, 0, 0, 0⟩ : Quat) := by
  rw [ned_enu_roundtrip]
  simp only [qneg, Quat.ext_iff']
  norm_num

/-- Claim C4 (amended): both fixed round trips return the componentwise
negation `-q` of the input — the antipodal quaternion, which determines the
same rotation matrix and hence the same orientation, but not the same
quaternion components. -/
theorem ftf_C4_roundtrip_antipodal :
    ∀ q : Quat,
      (transform_orientation (transform_orientation q .NED_TO_ENU)
        .ENU_TO_NED = qneg q) ∧
      (transform_orientation (transform_orientation q .AIRCRAFT_TO_BASELINK)
        .BASELINK_TO_AIRCRAFT = qneg q) ∧
      toRotationMatrix (qneg q) = toRotationMatrix q :=
  fun q => ⟨ned_enu_roundtrip q, aircraft_baselink_roundtrip q,
    toRotationMatrix_qneg q⟩

/-- Claim C5 counterexample: the symmetric covariance diag(1,2,3) under
NED_TO_ENU is mapped by the Covariance3d transform to a matrix that is not
symmetric and whose trace differs from the input's trace. -/
theorem ftf_cov3_symmetry_trace_counterexample :
    ((Matrix.of ![![1, 0, 0], ![0, 2, 0], ![0, 0, 3]] :
        Covariance3d).transpose =
      Matrix.of ![![1, 0, 0], ![0, 2, 0], ![0, 0, 3]]) ∧
    ((transform_static_frame_cov3
        (Matrix.of ![![1, 0, 0], ![0, 2, 0], ![0, 0, 3]])
        .NED_TO_ENU).transpose ≠
      transform_static_frame_cov3
        (Matrix.of ![![1, 0, 0], ![0, 2, 0], ![0, 0, 3]]) .NED_TO_ENU) ∧
    Matrix.trace (transform_static_frame_cov3
        (Matrix.of ![![1, 0, 0], ![0, 2, 0], ![0, 0, 3]]) .NED_TO_ENU) ≠
      Matrix.trace
        (Matrix.of ![![1, 0, 0], ![0, 2, 0], ![0, 0, 3]] : Covariance3d) := by
  refine ⟨?_, ?_, ?_⟩
  · ext i j
    fin_cases i <;> fin_cases j <;> rfl
  · intro h
    have h01 := congrFun (congrFun h 0) 1
    simp only [transform_static_frame_cov3, toRotationMatrix_NED_ENU_Q,
      Matrix.transpose_apply] at h01
    simp [Matrix.mul_apply, Fin.sum_univ_succ] at h01
  · intro h
    simp only [transform_static_frame_cov3, toRotationMatrix_NED_ENU_Q] at h
    simp [Matrix.trace, Matrix.diag, Matrix.mul_apply, Fin.sum_univ_succ,
      Fin.sum_univ_three] at h
    norm_num at h

/-- Claim C5 (amended): the Covariance6d transform does preserve symmetry
and trace for every direction and every symmetric input (its 6x6
block-diagonal rotation is orthogonal); the Covariance3d transform computes
`cov * R` and preserves neither in general. -/
theorem ftf_C5_cov6_preserves_symmetry_trace :
    ∀ (t : StaticTF) (cov : Covariance6d), cov.transpose = cov →
      ((transform_static_frame_cov6 cov t).transpose =
        transform_static_frame_cov6 cov t) ∧
      Matrix.trace (transform_static_frame_cov6 cov t) = Matrix.trace cov := by
  intro t cov h
  rw [transform_static_frame_cov6_eq]
  constructor
  · rw [Matrix.transpose_mul, Matrix.transpose_mul, Matrix.transpose_transpose,
      h, Matrix.mul_assoc]
  · rw [Matrix.trace_mul_cycle, staticCov6T_orth, Matrix.one_mul]

/-- Witness for C5 (amended) at the identity covariance and NED_TO_ENU. -/
theorem ftf_C5_cov6_witness :
    ((1 : Covariance6d).transpose = 1) ∧
    (((transform_static_frame_cov6 1 .NED_TO_ENU).transpose =
        transform_static_frame_cov6 1 .NED_TO_ENU) ∧
      Matrix.trace (transform_static_frame_cov6 1 .NED_TO_ENU) =
        Matrix.trace (1 : Covariance6d)) :=
  ⟨Matrix.transpose_one,
    ftf_C5_cov6_preserves_symmetry_trace .NED_TO_ENU 1 Matrix.transpose_one⟩

/-- Claim C10: within each fixed pair the two directions compute identical
results, for orientations, vectors, 3x3 covariances and 6x6 covariances
(the switch cases of each overload fall through to the same branch). -/
theorem ftf_C10_direction_independent :
    ∀ (q : Quat) (v : Fin 3 → ℝ) (c3 : Covariance3d) (c6 : Covariance6d),
      (transform_orientation q .NED_TO_ENU =
        transform_orientation q .ENU_TO_NED) ∧
      (transform_orientation q .AIRCRAFT_TO_BASELINK =
        transform_orientation q .BASELINK_TO_AIRCRAFT) ∧
      (transform_static_frame_vec v .NED_TO_ENU =
        transform_static_frame_vec v .ENU_TO_NED) ∧
      (transform_static_frame_vec v .AIRCRAFT_TO_BASELINK =
        transform_static_frame_vec v .BASELINK_TO_AIRCRAFT) ∧
      (transform_static_frame_cov3 c3 .NED_TO_ENU =
        transform_static_frame_cov3 c3 .ENU_TO_NED) ∧
      (transform_static_frame_cov3 c3 .AIRCRAFT_TO_BASELINK =
        transform_static_frame_cov3 c3 .BASELINK_TO_AIRCRAFT) ∧
      (transform_static_frame_cov6 c6 .NED_TO_ENU =
        transform_static_frame_cov6 c6 .ENU_TO_NED) ∧
      (transform_static_frame_cov6 c6 .AIRCRAFT_TO_BASELINK =
        transform_static_frame_cov6 c6 .BASELINK_TO_AIRCRAFT) :=
  fun _ _ _ _ => ⟨rfl, rfl, rfl, rfl, rfl, rfl, rfl, rfl⟩

end MavrosFTF

namespace MavrosNode

lemma foldl_addRoute_apply (regs : List (Fin 256 × Callback))
    (t : RouteTable) (m : Fin 256) :
    (regs.foldl (fun t r => addRoute t r.1 r.2) t) m = t m ++ regsFor m regs := by
  induction regs generalizing t with
  | nil => simp [regsFor]
  | cons r rs ih =>
      rw [List.foldl_cons, ih]
      by_cases h : r.1 = m
      · subst h
        simp [addRoute, connectSlot, regsFor, List.filter_cons]
      · simp [addRoute, Function.update, h, regsFor, List.filter_cons,
          Ne.symm h]

lemma registerAll_apply (regs : List (Fin 256 × Callback)) (m : Fin 256) :
    registerAll regs m = regsFor m regs := by
  rw [registerAll, foldl_addRoute_apply]
  simp [emptyRouteTable]

lemma runSlots_no_fail (cbs : List Callback) (msg : MavlinkMessage)
    (sysid compid : ℕ) (h : ∀ cb ∈ cbs, cb.fails = false) :
    runSlots cbs msg sysid compid =
      (cbs.map fun cb => Invocation.mk cb msg sysid compid, none) := by
  induction cbs with
  | nil => rfl
  | cons cb rest ih =>
      have hcb : cb.fails = false := h cb (by simp)
      rw [runSlots, if_neg (by simp [hcb])]
      simp [ih fun c hc => h c (by simp [hc])]

/-- Claim C6: for every registration sequence and every dispatched packet
whose callbacks all succeed, `plugin_route_cb` invokes exactly the
callbacks registered for the packet's message id, once each, in
registration order, each with the packet and its source-system and
source-component ids, and no fault escapes. -/
theorem router_C6_dispatch_in_order :
    ∀ (regs : List (Fin 256 × Callback)) (msg : MavlinkMessage)
      (sysid compid : ℕ),
      (∀ cb ∈ regsFor msg.msgid regs, cb.fails = false) →
      plugin_route_cb (registerAll regs) msg sysid compid =
        ((regsFor msg.msgid regs).map fun cb =>
            Invocation.mk cb msg sysid compid,
          none) := by
  intro regs msg sysid compid h
  rw [plugin_route_cb, registerAll_apply]
  exact runSlots_no_fail _ msg sysid compid h

/-- Witness for C6: three registrations, two of them for id 5; dispatching
an id-5 packet delivers to exactly those two, in order. -/
theorem router_C6_witness :
    (∀ cb ∈ regsFor (5 : Fin 256)
        [((5 : Fin 256), Callback.mk 1 false),
         ((5 : Fin 256), Callback.mk 2 false),
         ((7 : Fin 256), Callback.mk 3 false)], cb.fails = false) ∧
    plugin_route_cb
        (registerAll
          [((5 : Fin 256), Callback.mk 1 false),
           ((5 : Fin 256), Callback.mk 2 false),
           ((7 : Fin 256), Callback.mk 3 false)])
        (MavlinkMessage.mk 5 0 []) 42 200 =
      ((regsFor (5 : Fin 256)
          [((5 : Fin 256), Callback.mk 1 false),
           ((5 : Fin 256), Callback.mk 2 false),
           ((7 : Fin 256), Callback.mk 3 false)]).map fun cb =>
        Invocation.mk cb (MavlinkMessage.mk 5 0 []) 42 200, none) :=
  ⟨by decide,
    router_C6_dispatch_in_order
      [((5 : Fin 256), Callback.mk 1 false),
       ((5 : Fin 256), Callback.mk 2 false),
       ((7 : Fin 256), Callback.mk 3 false)]
      (MavlinkMessage.mk 5 0 []) 42 200 (by decide)⟩

/-- Claim C7: registering with a message id outside [0,255] fails with
InvalidId and leaves the route table unchanged. -/
theorem router_C7_invalid_id :
    ∀ (message_id : ℕ) (cb : Callback) (t : RouteTable), 256 ≤ message_id →
      routerRegister message_id cb t = Except.error RegisterError.InvalidId ∧
      routerRegisterState message_id cb t = t := by
  intro message_id cb t h
  have hlt : ¬ message_id < 256 := by omega
  exact ⟨by simp [routerRegister, hlt],
    by simp [routerRegisterState, routerRegister, hlt]⟩

/-- Witness for C7 at message id 300. -/
theorem router_C7_witness :
    (256 ≤ 300) ∧
    (routerRegister 300 (Callback.mk 0 false) emptyRouteTable =
        Except.error RegisterError.InvalidId ∧
      routerRegisterState 300 (Callback.mk 0 false) emptyRouteTable =
        emptyRouteTable) :=
  ⟨by decide,
    router_C7_invalid_id 300 (Callback.mk 0 false) emptyRouteTable (by decide)⟩

/-- Claim C8 counterexample: with a failing first subscriber and a healthy
second subscriber both registered for id 5, dispatching an id-5 packet lets
the fault escape (it is not caught) and never invokes the second
subscriber. -/
theorem router_fault_not_caught_counterexample :
    plugin_route_cb
        (registerAll [((5 : Fin 256), Callback.mk 1 true),
                      ((5 : Fin 256), Callback.mk 2 false)])
        (MavlinkMessage.mk 5 0 []) 0 0 =
      ([], some (SubscriberFault.mk (Callback.mk 1 true))) ∧
    Callback.mk 2 false ∉
      (plugin_route_cb
          (registerAll [((5 : Fin 256), Callback.mk 1 true),
                        ((5 : Fin 256), Callback.mk 2 false)])
          (MavlinkMessage.mk 5 0 []) 0 0).1.map Invocation.cb := by
  decide

/-- Claim C8 (amended): there is no catch on the dispatch path — the first
failing subscriber aborts delivery to every remaining subscriber for that
packet and the fault propagates out of `plugin_route_cb` (only plugin
load/initialization failures are caught, inside `add_plugin`). -/
theorem router_C8_fault_propagates :
    ∀ (pre post : List Callback) (f : Callback) (msg : MavlinkMessage)
      (sysid compid : ℕ),
      (∀ cb ∈ pre, cb.fails = false) → f.fails = true →
      runSlots (pre ++ f :: post) msg sysid compid =
        (pre.map fun cb => Invocation.mk cb msg sysid compid,
          some (SubscriberFault.mk f)) := by
  intro pre post f msg sysid compid hpre hf
  induction pre with
  | nil => simp [runSlots, hf]
  | cons cb rest ih =>
      have hcb : cb.fails = false := hpre cb (by simp)
      rw [List.cons_append, runSlots, if_neg (by simp [hcb])]
      simp [ih fun c hc => hpre c (by simp [hc])]

/-- Witness for C8 (amended): one healthy subscriber, then a failing one,
then another healthy one. -/
theorem router_C8_witness :
    (∀ cb ∈ [Callback.mk 1 false], cb.fails = false) ∧
    (Callback.mk 2 true).fails = true ∧
    runSlots ([Callback.mk 1 false] ++ Callback.mk 2 true ::
        [Callback.mk 3 false]) (MavlinkMessage.mk 5 0 []) 9 8 =
      ([Callback.mk 1 false].map fun cb =>
          Invocation.mk cb (MavlinkMessage.mk 5 0 []) 9 8,
        some (SubscriberFault.mk (Callback.mk 2 true))) :=
  ⟨by decide, by decide,
    router_C8_fault_propagates [Callback.mk 1 false] [Callback.mk 3 false]
      (Callback.mk 2 true) (MavlinkMessage.mk 5 0 []) 9 8
      (by decide) (by decide)⟩

/-- Claim C9: across two successive polls of a live link, the second poll
treats the drop counter as a delta against the value recorded at the first
poll — it warns with exactly (current drops - previous drops) when the
counter increased and reports "connected" otherwise — and in particular
polling rx_success=10, rx_drop=2 and then rx_success=15, rx_drop=2 yields
"connected" (0 new drops) at the second poll. -/
theorem diag_C9_drop_delta :
    ∀ (st1 st2 : mavlink_status_t) (last0 : ℕ),
      ((MavlinkDiag_run (some st2)
            (MavlinkDiag_run (some st1) last0).2).1.summary =
          (if st1.packet_rx_drop_count < st2.packet_rx_drop_count then
            DiagSummary.packagesDropped
              (st2.packet_rx_drop_count - st1.packet_rx_drop_count)
          else DiagSummary.connected) ∧
        (MavlinkDiag_run (some st2)
            (MavlinkDiag_run (some st1) last0).2).2 =
          st2.packet_rx_drop_count) ∧
      (MavlinkDiag_run (some (mavlink_status_t.mk 15 2 0 0 0 0))
          (MavlinkDiag_run (some (mavlink_status_t.mk 10 2 0 0 0 0))
            MavlinkDiag_init).2).1.summary = DiagSummary.connected := by
  intro st1 st2 last0
  exact ⟨⟨rfl, rfl⟩, rfl⟩

end MavrosNode
